import Mathlib

/-!
Verification of the DMDRVI driver-interface contract (src/include/dmdrvi.h).

The repository consists of a single C header that declares, through the
`dmod_dmdrvi_dif` macro, the nine operations every DMDRVI driver module must
implement.  We embed the header in two layers:

1. a syntactic embedding of the declaration list itself (C types, operation
   names, versions, parameter lists), transcribed line by line from
   `src/include/dmdrvi.h`;
2. a behavioural model of the contract layer.  The repository contains no
   implementation (concrete drivers are external collaborators), so the
   behavioural definitions are modelled from the spec, as marked in their
   doc comments.
-/

namespace DMDRVI

/-- C types appearing in the DMDRVI interface declarations of
`src/include/dmdrvi.h`.  `dmdrvi_context_ptr` is the opaque
`dmdrvi_context_t` (a pointer to `struct dmdrvi_context`),
`dmini_context_ptr` the configuration provider handle,
`dev_num_ptr` a `dmdrvi_dev_num_t*`, `stat_ptr` a `dmdrvi_stat_t*`. -/
inductive CType where
  | dmdrvi_context_ptr
  | dmini_context_ptr
  | dev_num_ptr
  | stat_ptr
  | void_ptr
  | const_void_ptr
  | size_t
  | c_int
  | c_void
  deriving DecidableEq

/-- One interface declaration produced by the `dmod_dmdrvi_dif` macro:
a version tag, a result type, an operation name and a parameter list. -/
structure DifOp where
  version : String
  ret : CType
  name : String
  params : List CType
  deriving DecidableEq

/-- Embedding of the `dmod_dmdrvi_dif(version, ret, name, (params))`
macro invocation: it declares one operation of the interface. -/
def dmod_dmdrvi_dif (version : String) (ret : CType) (name : String)
    (params : List CType) : DifOp :=
  ⟨version, ret, name, params⟩

/-- The nine interface declarations of `src/include/dmdrvi.h`, lines 72-154,
transcribed in order. -/
def dmdrvi_interface : List DifOp :=
  [ dmod_dmdrvi_dif "1.0" .dmdrvi_context_ptr "_create"
      [.dmini_context_ptr, .dev_num_ptr],
    dmod_dmdrvi_dif "1.0" .c_void "_free"
      [.dmdrvi_context_ptr],
    dmod_dmdrvi_dif "1.0" .void_ptr "_open"
      [.dmdrvi_context_ptr, .c_int],
    dmod_dmdrvi_dif "1.0" .c_void "_close"
      [.dmdrvi_context_ptr, .void_ptr],
    dmod_dmdrvi_dif "1.0" .size_t "_read"
      [.dmdrvi_context_ptr, .void_ptr, .void_ptr, .size_t],
    dmod_dmdrvi_dif "1.0" .size_t "_write"
      [.dmdrvi_context_ptr, .void_ptr, .const_void_ptr, .size_t],
    dmod_dmdrvi_dif "1.0" .c_int "_ioctl"
      [.dmdrvi_context_ptr, .void_ptr, .c_int, .void_ptr],
    dmod_dmdrvi_dif "1.0" .c_int "_flush"
      [.dmdrvi_context_ptr, .void_ptr],
    dmod_dmdrvi_dif "1.0" .c_int "_stat"
      [.dmdrvi_context_ptr, .void_ptr, .stat_ptr] ]

/-- Result shapes of the contract: an opaque pointer or handle, a byte
count, an integer status code, or void. -/
inductive ResultShape where
  | opaquePtr
  | byteCount
  | statusCode
  | voidResult
  deriving DecidableEq

/-- Classification of a C result type into the contract's result shape.
`dmdrvi_context_t` and `void*` results are opaque pointers or handles,
`size_t` is a byte count, `int` is a status code, `void` is void; the
remaining types never occur as result types. -/
def resultShape : CType → Option ResultShape
  | .dmdrvi_context_ptr => some .opaquePtr
  | .void_ptr => some .opaquePtr
  | .size_t => some .byteCount
  | .c_int => some .statusCode
  | .c_void => some .voidResult
  | _ => none

/-- Look up an interface declaration by operation name. -/
def findOp (n : String) : Option DifOp :=
  dmdrvi_interface.find? (fun op => op.name = n)

/-- Whether a C parameter type lets the callee modify the caller's object
through it.  Mutable pointer types do; a `const void*` parameter is
declared read-only, and non-pointer parameters are passed by value. -/
def calleeMayModifyThrough : CType → Bool
  | .dmdrvi_context_ptr => true
  | .dmini_context_ptr => true
  | .dev_num_ptr => true
  | .stat_ptr => true
  | .void_ptr => true
  | .const_void_ptr => false
  | .size_t => false
  | .c_int => false
  | .c_void => false

/-- Whether a C result type is an unsigned integral type: `size_t` is
unsigned; `int` is signed; the pointer and void results carry no sign. -/
def ctypeUnsigned : CType → Bool
  | .size_t => true
  | _ => false

/-- Set of integer values representable in a `size_t` of width `w` bits:
`size_t` is unsigned, so the range starts at zero. -/
def sizeTRepresentable (w : Nat) (v : Int) : Prop :=
  0 ≤ v ∧ v < 2 ^ w

/-! Behavioural model of the contract layer.  The header declares the
interface but contains no implementation, so these definitions are
modelled from the spec (§3, §4, §8), as each doc comment records. -/

/-- Open-for-read-only flag, value from `src/include/dmdrvi.h` line 22. -/
def DMDRVI_O_RDONLY : Nat := 0x01

/-- Open-for-write-only flag, value from `src/include/dmdrvi.h` line 27. -/
def DMDRVI_O_WRONLY : Nat := 0x02

/-- Open-for-read-and-write flag, value from `src/include/dmdrvi.h` line 32. -/
def DMDRVI_O_RDWR : Nat := 0x04

/-- Numbering flag: driver does not use numbering (`dmdrvi.h` line 37). -/
def DMDRVI_NUM_NONE : Nat := 0x00

/-- Numbering flag: driver uses a major number (`dmdrvi.h` line 38). -/
def DMDRVI_NUM_MAJOR : Nat := 0x01

/-- Numbering flag: driver uses a minor number, which the header requires
to be combined with `DMDRVI_NUM_MAJOR` (`dmdrvi.h` line 39). -/
def DMDRVI_NUM_MINOR : Nat := 0x02

/-- The three numbering schemes of the spec's data model: None,
MajorOnly, or MajorAndMinor. -/
inductive NumberingScheme where
  | noNum
  | majorOnly
  | majorAndMinor
  deriving DecidableEq

/-- Modelled from the spec: the flag byte the Numbering Authority writes
into `dev_num.flags` for each scheme (§3 and §4.1: `None` maps to no flag,
`MajorOnly` to the major flag, `MajorAndMinor` to both, since the header
states the minor flag must be combined with the major flag). -/
def schemeFlags : NumberingScheme → Nat
  | .noNum => DMDRVI_NUM_NONE
  | .majorOnly => DMDRVI_NUM_MAJOR
  | .majorAndMinor => DMDRVI_NUM_MAJOR ||| DMDRVI_NUM_MINOR

/-- Modelled from the spec: the minor field of a `DeviceNumber` is
meaningful only under the `MajorAndMinor` scheme (§3, §4.1). -/
def minorMeaningful (s : NumberingScheme) : Bool :=
  s = NumberingScheme.majorAndMinor

/-- The access modes of the spec's data model: one of
ReadOnly, WriteOnly, ReadWrite. -/
inductive AccessMode where
  | readOnly
  | writeOnly
  | readWrite
  deriving DecidableEq

/-- Modelled from the spec: `open` (missing from src/, declared only in
the header) accepts exactly one of the three access modes per call (§3:
mutually exclusive; §8: combining the read-only and write-only bits must
be rejected with a null Handle).  A null handle is `none`; a successful
open yields the selected mode. -/
def dmdrvi_open (flags : Nat) : Option AccessMode :=
  if flags = DMDRVI_O_RDONLY then some .readOnly
  else if flags = DMDRVI_O_WRONLY then some .writeOnly
  else if flags = DMDRVI_O_RDWR then some .readWrite
  else none

/-- Device-side state of one open session: the device backing bytes, the
session position and the device mode bits. -/
structure DeviceState where
  data : List Nat
  pos : Nat
  mode : Nat
  deriving DecidableEq

/-- Modelled from the spec: `read` (missing from src/, declared only in
the header) transfers at most `size` bytes from the device data at the
session position into the caller buffer and returns the new device state,
the caller buffer after the call, and the count actually transferred
(§4.3: must not read more than `size` bytes into `buffer`; short reads
are allowed; zero signals end of data). -/
def dmdrvi_read (s : DeviceState) (buffer : List Nat) (size : Nat) :
    DeviceState × List Nat × Nat :=
  let chunk := (s.data.drop s.pos).take size
  ({ s with pos := s.pos + chunk.length },
   chunk ++ buffer.drop chunk.length,
   chunk.length)

/-- Modelled from the spec: `write` (missing from src/, declared only in
the header) copies at most `size` bytes from the caller's read-only buffer
into the device data at the session position and returns the count written
(§4.3: symmetric short-write contract). -/
def dmdrvi_write (s : DeviceState) (buffer : List Nat) (size : Nat) :
    DeviceState × Nat :=
  let chunk := buffer.take size
  ({ s with
      data := s.data.take s.pos ++ chunk ++ s.data.drop (s.pos + chunk.length),
      pos := s.pos + chunk.length },
   chunk.length)

/-- Stat structure of the header (`dmdrvi_stat_t`, lines 54-58): a u32
size and u32 mode, stored here as naturals reduced modulo 2^32. -/
structure dmdrvi_stat_model where
  size : Nat
  mode : Nat
  deriving DecidableEq

/-- Modelled from the spec: `stat` (missing from src/, declared only in
the header) fills the caller's structure with a point-in-time snapshot of
the device and returns an errno-style status, zero meaning success (§4.3);
it does not mutate the device. -/
def dmdrvi_stat (s : DeviceState) : Int × dmdrvi_stat_model :=
  (0, ⟨s.data.length % 2 ^ 32, s.mode % 2 ^ 32⟩)

/-- Modelled from the spec: `flush` (missing from src/, declared only in
the header) forces buffered output to the device; this contract-layer
model keeps no buffer, so flush is a no-op returning success (§4.3). -/
def dmdrvi_flush (s : DeviceState) : Int × DeviceState :=
  (0, s)

/-- One handle-level operation of the contract, for reasoning about
sequences of calls between two `stat` calls. -/
inductive DevOp where
  | readOp (size : Nat)
  | writeOp (buf : List Nat) (size : Nat)
  | flushOp
  | ioctlOp (cmd : Nat)
  | statOp
  deriving DecidableEq

/-- Whether an operation is a `write`. -/
def isWriteOp : DevOp → Bool
  | .writeOp _ _ => true
  | _ => false

/-- Modelled from the spec: the device-state transition of each operation.
`read` advances the position, `write` also rewrites the data, `flush` and
`stat` leave the state unchanged, and `ioctl` — the driver-defined escape
hatch the spec names for seeking — is modelled as a seek. -/
def stepOp (s : DeviceState) : DevOp → DeviceState
  | .readOp size => (dmdrvi_read s (List.replicate size 0) size).1
  | .writeOp buf size => (dmdrvi_write s buf size).1
  | .flushOp => (dmdrvi_flush s).2
  | .ioctlOp cmd => { s with pos := cmd }
  | .statOp => s

/-- Run a sequence of handle operations from a device state. -/
def runOps (s : DeviceState) : List DevOp → DeviceState
  | [] => s
  | op :: ops => runOps (stepOp s op) ops

/-- Configuration snapshot the Numbering Authority reads: whether the
configuration is well-formed with all required numbering parameters
present, which numbering scheme it selects, and the requested numbers. -/
structure DriverConfig where
  wellFormed : Bool
  scheme : NumberingScheme
  major : Nat
  minor : Nat
  deriving DecidableEq

/-- Device number structure of the header (`dmdrvi_dev_num_t`, lines
44-49): major, minor and the `DMDRVI_NUM_*` flag byte. -/
structure dmdrvi_dev_num_model where
  major : Nat
  minor : Nat
  flags : Nat
  deriving DecidableEq

/-- Modelled from the spec: the Numbering Authority's allocation table
(§5: allocation must avoid two instances receiving the same major/minor
pair).  A request conflicting with an already-allocated number fails;
otherwise the pair is recorded and returned. -/
def allocDevNum (table : List (Nat × Nat)) (req : Nat × Nat) :
    Option ((Nat × Nat) × List (Nat × Nat)) :=
  if req ∈ table then none else some (req, req :: table)

/-- Modelled from the spec: `create` (missing from src/, declared only in
the header).  A malformed configuration, or a major/minor request that
conflicts with an already-allocated number, fails with a null context —
`none`, carrying no device number, so the caller's `dev_num` storage is
left unwritten.  On success the device number is filled according to the
configured scheme (§4.1, §4.2). -/
def dmdrvi_create (cfg : DriverConfig) (table : List (Nat × Nat)) :
    Option dmdrvi_dev_num_model × List (Nat × Nat) :=
  if cfg.wellFormed = false then (none, table)
  else
    match cfg.scheme with
    | .noNum => (some ⟨0, 0, DMDRVI_NUM_NONE⟩, table)
    | .majorOnly => (some ⟨cfg.major, 0, DMDRVI_NUM_MAJOR⟩, table)
    | .majorAndMinor =>
      match allocDevNum table (cfg.major, cfg.minor) with
      | none => (none, table)
      | some (p, t) =>
        (some ⟨p.1, p.2, DMDRVI_NUM_MAJOR ||| DMDRVI_NUM_MINOR⟩, t)

/-- Run a sequence of `create` calls against the Numbering Authority's
table, collecting the device numbers of the successful calls. -/
def runCreates : List DriverConfig → List (Nat × Nat) → List dmdrvi_dev_num_model
  | [], _ => []
  | cfg :: cfgs, table =>
    match dmdrvi_create cfg table with
    | (none, t) => runCreates cfgs t
    | (some dn, t) => dn :: runCreates cfgs t

/-- The (major, minor) pairs of the device numbers that use the
MajorAndMinor scheme. -/
def createdPairs : List dmdrvi_dev_num_model → List (Nat × Nat)
  | [] => []
  | dn :: dns =>
    if dn.flags = DMDRVI_NUM_MAJOR ||| DMDRVI_NUM_MINOR then
      (dn.major, dn.minor) :: createdPairs dns
    else createdPairs dns

/-- Helper: a non-write operation leaves the device data unchanged. -/
theorem stepOp_preserves_data (s : DeviceState) (op : DevOp)
    (h : isWriteOp op = false) : (stepOp s op).data = s.data := by
  cases op <;> simp_all [stepOp, dmdrvi_read, dmdrvi_flush, isWriteOp]

/-- Helper: a write-free sequence of operations leaves the device data
unchanged. -/
theorem runOps_preserves_data (ops : List DevOp) :
    ∀ s : DeviceState, (∀ op ∈ ops, isWriteOp op = false) →
      (runOps s ops).data = s.data := by
  induction ops with
  | nil => intro s _; rfl
  | cons op ops ih =>
    intro s h
    have hop : isWriteOp op = false := h op (List.mem_cons_self op ops)
    have hrest : ∀ o ∈ ops, isWriteOp o = false :=
      fun o ho => h o (List.mem_cons_of_mem op ho)
    calc (runOps (stepOp s op) ops).data
        = (stepOp s op).data := ih (stepOp s op) hrest
      _ = s.data := stepOp_preserves_data s op hop

/-- Helper invariant: starting from any allocation table, the
MajorAndMinor pairs produced by a run of `create` calls are pairwise
distinct and none of them was already in the table. -/
theorem runCreates_pairs_fresh (cfgs : List DriverConfig) :
    ∀ table : List (Nat × Nat),
      (createdPairs (runCreates cfgs table)).Nodup ∧
      ∀ p ∈ createdPairs (runCreates cfgs table), p ∉ table := by
  induction cfgs with
  | nil => intro table; simp [runCreates, createdPairs]
  | cons cfg cfgs ih =>
    intro table
    by_cases hw : cfg.wellFormed = false
    · have hc : dmdrvi_create cfg table = (none, table) := by
        simp [dmdrvi_create, hw]
      simp only [runCreates, hc]
      exact ih table
    · cases hs : cfg.scheme with
      | noNum =>
        have hc : dmdrvi_create cfg table =
            (some ⟨0, 0, DMDRVI_NUM_NONE⟩, table) := by
          simp [dmdrvi_create, hw, hs]
        simp only [runCreates, hc, createdPairs]
        simpa [DMDRVI_NUM_NONE, DMDRVI_NUM_MAJOR, DMDRVI_NUM_MINOR]
          using ih table
      | majorOnly =>
        have hc : dmdrvi_create cfg table =
            (some ⟨cfg.major, 0, DMDRVI_NUM_MAJOR⟩, table) := by
          simp [dmdrvi_create, hw, hs]
        simp only [runCreates, hc, createdPairs]
        simpa [DMDRVI_NUM_MAJOR, DMDRVI_NUM_MINOR]
          using ih table
      | majorAndMinor =>
        by_cases hm : (cfg.major, cfg.minor) ∈ table
        · have hc : dmdrvi_create cfg table = (none, table) := by
            simp [dmdrvi_create, hw, hs, allocDevNum, hm]
          simp only [runCreates, hc]
          exact ih table
        · have hc : dmdrvi_create cfg table =
              (some ⟨cfg.major, cfg.minor,
                DMDRVI_NUM_MAJOR ||| DMDRVI_NUM_MINOR⟩,
               (cfg.major, cfg.minor) :: table) := by
            simp [dmdrvi_create, hw, hs, allocDevNum, hm]
          obtain ⟨hnd, hfresh⟩ := ih ((cfg.major, cfg.minor) :: table)
          simp only [runCreates, hc, createdPairs, if_pos rfl]
          constructor
          · refine List.Nodup.cons ?_ hnd
            intro hmem
            exact hfresh _ hmem (List.mem_cons_self _ _)
          · intro p hp
            rcases List.mem_cons.mp hp with hp | hp
            · simpa [hp] using hm
            · exact fun hpt => hfresh p hp (List.mem_cons_of_mem _ hpt)

end DMDRVI

namespace DMDRVI

/-- C1: the interface exposes exactly nine operations — create, free, open,
close, read, write, ioctl, flush, stat — and the declared result type of
each matches the contract's shape: an opaque pointer or handle for create
and open, a byte count (`size_t`) for read and write, an integer status
code for ioctl, flush and stat, and void for free and close. -/
theorem interface_has_nine_ops_with_declared_shapes :
    dmdrvi_interface.length = 9 ∧
    dmdrvi_interface.map (fun op => op.name) =
      ["_create", "_free", "_open", "_close", "_read",
       "_write", "_ioctl", "_flush", "_stat"] ∧
    dmdrvi_interface.map (fun op => resultShape op.ret) =
      [some .opaquePtr, some .voidResult, some .opaquePtr, some .voidResult,
       some .byteCount, some .byteCount, some .statusCode, some .statusCode,
       some .statusCode] :=
  ⟨rfl, rfl, rfl⟩

/-- C8: every one of the nine operations in the contract is tagged with
the same interface version, "1.0". -/
theorem interface_all_ops_version_one_point_zero :
    dmdrvi_interface.map (fun op => op.version) = List.replicate 9 "1.0" :=
  rfl

/-- C9: the `_write` declaration (header line 121) gives the caller's data
buffer the type `const void*`: read-only, so for any buffer and any size
the operation cannot modify the caller's data through it — unlike the
`_read` buffer, which is a mutable `void*`. -/
theorem write_buffer_declared_const_never_modified :
    (findOp "_write").map (fun op => op.params.get? 2) =
      some (some .const_void_ptr) ∧
    calleeMayModifyThrough .const_void_ptr = false ∧
    (findOp "_read").map (fun op => op.params.get? 2) =
      some (some .void_ptr) :=
  ⟨rfl, rfl, rfl⟩

/-- C10: `_read` and `_write` (header lines 109 and 121) both return
`size_t`, an unsigned type, so every representable return value is
non-negative: the interface cannot signal failure through a negative
count, and zero is the only terminal count value. -/
theorem read_write_return_unsigned_size_t :
    (findOp "_read").map (fun op => op.ret) = some .size_t ∧
    (findOp "_write").map (fun op => op.ret) = some .size_t ∧
    ctypeUnsigned .size_t = true ∧
    ∀ w v, sizeTRepresentable w v → 0 ≤ v :=
  ⟨rfl, rfl, rfl, fun _ _ h => h.1⟩

/-- Witness for C10 at width 64 and value 5. -/
theorem read_write_return_unsigned_size_t_witness : (0 : Int) ≤ 5 :=
  read_write_return_unsigned_size_t.2.2.2 64 5 ⟨by decide, by decide⟩

/-- C3: in the flag encoding the Numbering Authority produces, the
`DMDRVI_NUM_MINOR` bit is never set without `DMDRVI_NUM_MAJOR`, and the
minor field is meaningful exactly when the minor bit is present, i.e.
under the MajorAndMinor scheme. -/
theorem minor_flag_never_without_major (s : NumberingScheme)
    (h : (schemeFlags s).testBit 1 = true) :
    (schemeFlags s).testBit 0 = true ∧ minorMeaningful s = true := by
  cases s
  · exact absurd h (by decide)
  · exact absurd h (by decide)
  · exact ⟨by decide, by decide⟩

/-- Witness for C3 at the MajorAndMinor scheme. -/
theorem minor_flag_never_without_major_witness :
    (schemeFlags .majorAndMinor).testBit 0 = true ∧
    minorMeaningful .majorAndMinor = true :=
  minor_flag_never_without_major .majorAndMinor (by decide)

/-- C5: an `open` call whose flags combine the read-only and write-only
bits returns a null Handle, and any successful `open` call used exactly
one of the three access-mode flags. -/
theorem open_rejects_combined_flags :
    dmdrvi_open (DMDRVI_O_RDONLY ||| DMDRVI_O_WRONLY) = none ∧
    ∀ flags : Nat, (dmdrvi_open flags).isSome = true →
      flags = DMDRVI_O_RDONLY ∨ flags = DMDRVI_O_WRONLY ∨
      flags = DMDRVI_O_RDWR := by
  refine ⟨by decide, fun flags h => ?_⟩
  unfold dmdrvi_open at h
  split_ifs at h with h1 h2 h3
  · exact Or.inl h1
  · exact Or.inr (Or.inl h2)
  · exact Or.inr (Or.inr h3)
  · simp at h

/-- Witness for C5: the combined-flags call returns null, and the
successful call with the read-only flag used one of the three modes. -/
theorem open_rejects_combined_flags_witness :
    dmdrvi_open (DMDRVI_O_RDONLY ||| DMDRVI_O_WRONLY) = none ∧
    (DMDRVI_O_RDONLY = DMDRVI_O_RDONLY ∨ DMDRVI_O_RDONLY = DMDRVI_O_WRONLY ∨
     DMDRVI_O_RDONLY = DMDRVI_O_RDWR) :=
  ⟨open_rejects_combined_flags.1,
   open_rejects_combined_flags.2 DMDRVI_O_RDONLY (by decide)⟩

/-- C2: `read` transfers at most `size` bytes: the returned count never
exceeds `size`, the caller buffer is untouched beyond the first count
entries, the buffer length is preserved whenever the caller supplied at
least `size` entries, and a call with `size = 0` returns count 0 with the
buffer unchanged — no error is signalled, the count being the only
channel. -/
theorem read_writes_at_most_size (s : DeviceState) (buf : List Nat)
    (size : Nat) :
    (dmdrvi_read s buf size).2.2 ≤ size ∧
    (dmdrvi_read s buf size).2.1.drop (dmdrvi_read s buf size).2.2 =
      buf.drop (dmdrvi_read s buf size).2.2 ∧
    (size ≤ buf.length → (dmdrvi_read s buf size).2.1.length = buf.length) ∧
    (size = 0 → (dmdrvi_read s buf size).2.2 = 0 ∧
      (dmdrvi_read s buf size).2.1 = buf) := by
  refine ⟨?_, ?_, ?_, ?_⟩
  · simp [dmdrvi_read, List.length_take]
  · simp [dmdrvi_read, List.drop_left]
  · intro h
    have hle : ((s.data.drop s.pos).take size).length ≤ buf.length := by
      simp only [List.length_take]
      omega
    simp only [dmdrvi_read, List.length_append, List.length_drop]
    omega
  · intro h
    subst h
    simp [dmdrvi_read]

/-- Witness for C2 at a concrete device, buffer and size, discharging the
length hypothesis at size 2 and the zero-size hypothesis at size 0. -/
theorem read_writes_at_most_size_witness :
    (dmdrvi_read ⟨[10, 20, 30, 40], 1, 0⟩ [7, 7, 7] 2).2.1.length = 3 ∧
    (dmdrvi_read ⟨[10, 20, 30, 40], 1, 0⟩ [7, 7, 7] 0).2.2 = 0 ∧
    (dmdrvi_read ⟨[10, 20, 30, 40], 1, 0⟩ [7, 7, 7] 0).2.1 = [7, 7, 7] :=
  ⟨(read_writes_at_most_size ⟨[10, 20, 30, 40], 1, 0⟩ [7, 7, 7] 2).2.2.1
      (by decide),
   (read_writes_at_most_size ⟨[10, 20, 30, 40], 1, 0⟩ [7, 7, 7] 0).2.2.2 rfl⟩

/-- C4: starting from an empty allocation table, any sequence of `create`
calls yields pairwise-distinct (major, minor) pairs among the successful
creations that use the MajorAndMinor scheme: the Numbering Authority
never assigns the same pair twice. -/
theorem create_major_minor_pairs_distinct (cfgs : List DriverConfig) :
    (createdPairs (runCreates cfgs [])).Nodup :=
  (runCreates_pairs_fresh cfgs []).1

/-- C6: when `create` fails it returns a null context carrying no device
number — the caller's `dev_num` storage stays unwritten — and the
Numbering Authority's allocation table is exactly as before the call: no
partial state is left behind. -/
theorem create_failure_leaves_no_partial_state (cfg : DriverConfig)
    (table : List (Nat × Nat))
    (h : (dmdrvi_create cfg table).1 = none) :
    (dmdrvi_create cfg table).2 = table := by
  by_cases hw : cfg.wellFormed = false
  · simp [dmdrvi_create, hw]
  · cases hs : cfg.scheme with
    | noNum => simp [dmdrvi_create, hw, hs] at h
    | majorOnly => simp [dmdrvi_create, hw, hs] at h
    | majorAndMinor =>
      by_cases hm : (cfg.major, cfg.minor) ∈ table
      · simp [dmdrvi_create, hw, hs, allocDevNum, hm]
      · simp [dmdrvi_create, hw, hs, allocDevNum, hm] at h

/-- Witness for C6 at a malformed configuration and a one-entry table. -/
theorem create_failure_leaves_no_partial_state_witness :
    (dmdrvi_create ⟨false, .noNum, 0, 0⟩ [(1, 2)]).2 = [(1, 2)] :=
  create_failure_leaves_no_partial_state ⟨false, .noNum, 0, 0⟩ [(1, 2)] rfl

/-- C7: two successful `stat` calls with no intervening `write` — any
write-free sequence of read, flush, ioctl and stat operations may run
between them — return identical size values, and both calls succeed with
status 0. -/
theorem stat_size_stable_without_write (s : DeviceState) (ops : List DevOp)
    (h : ∀ op ∈ ops, isWriteOp op = false) :
    (dmdrvi_stat s).1 = 0 ∧ (dmdrvi_stat (runOps s ops)).1 = 0 ∧
    (dmdrvi_stat (runOps s ops)).2.size = (dmdrvi_stat s).2.size := by
  refine ⟨rfl, rfl, ?_⟩
  simp [dmdrvi_stat, runOps_preserves_data ops s h]

/-- Witness for C7: a stat, a read, a flush and a seek between the two
stat calls on a concrete three-byte device. -/
theorem stat_size_stable_without_write_witness :
    (dmdrvi_stat ⟨[1, 2, 3], 0, 0⟩).1 = 0 ∧
    (dmdrvi_stat (runOps ⟨[1, 2, 3], 0, 0⟩
      [.statOp, .readOp 2, .flushOp, .ioctlOp 0])).1 = 0 ∧
    (dmdrvi_stat (runOps ⟨[1, 2, 3], 0, 0⟩
      [.statOp, .readOp 2, .flushOp, .ioctlOp 0])).2.size =
      (dmdrvi_stat ⟨[1, 2, 3], 0, 0⟩).2.size :=
  stat_size_stable_without_write ⟨[1, 2, 3], 0, 0⟩
    [.statOp, .readOp 2, .flushOp, .ioctlOp 0] (by decide)

end DMDRVI
